import Mathlib

/-!
# Site Analysis Engine — verification development

Shallow embedding of the heuristic site-analysis engine in
`convex/siteAnalyzer.ts`: the pure functions `detectTechnologies`,
`analyzePerformance`, `analyzeSecurityHeaders` and `analyzeSEO`, plus the
bulk-analysis-job status transitions (`createBulkJob` / `updateBulkJob`).

Modelling conventions:
* A JavaScript `Record<string, string>` header map is an association list
  `List (String × String)`; property access `headers[k]` is first-match
  lookup, and JS truthiness of the looked-up string (absent or `""` is
  falsy) is `isTruthy`.
* JS numbers holding integer millisecond counts are `Nat`; `Math.floor`
  of a product with the literals `0.3` / `0.8` is exact-rational floor,
  i.e. `3 * n / 10` and `8 * n / 10` in `Nat`.
* Scores, which are decremented and may conceptually pass below zero
  before the final clamp, are `Int`.
* The regex scans are embedded as explicit character-list scanners with
  the same semantics as the source regexes (left-to-right, a `[^>]*`
  before a `>` consumes up to the first `>`, global matching resumes
  after the consumed match).  Case-insensitive (`/i`) scans run on the
  ASCII-lowercased text.
-/

/-- ASCII lowercasing of one character (the effect of `toLowerCase` /
regex `/i` folding on the ASCII tag patterns involved here). -/
def asciiLower (c : Char) : Char :=
  if c.val ≥ 65 ∧ c.val ≤ 90 then Char.ofNat (c.toNat + 32) else c

/-- ASCII-lowercased character list of a string. -/
def lowerData (s : String) : List Char :=
  s.data.map asciiLower

/-- ASCII-lowercased string. -/
def lowerStr (s : String) : String :=
  ⟨lowerData s⟩

/-- If `p` is a prefix of `l`, return the remainder of `l`, else `none`. -/
def stripPrefixChars : List Char → List Char → Option (List Char)
  | [], l => some l
  | _ :: _, [] => none
  | p :: ps, c :: cs => if p == c then stripPrefixChars ps cs else none

/-- Split `l` at its first `>`: `some (mid, rest)` with
`l = mid ++ '>' :: rest` and no `>` in `mid` (the effect of `[^>]*>`). -/
def splitAtGt : List Char → Option (List Char × List Char)
  | [] => none
  | c :: rest =>
    if c == '>' then some ([], rest)
    else
      match splitAtGt rest with
      | none => none
      | some (mid, r) => some (c :: mid, r)

/-- Drop to the first `<` of `l` (the position where a greedy `[^<]+`
run stops), returning the suffix starting at that `<`. -/
def dropUntilLt : List Char → Option (List Char)
  | [] => none
  | c :: rest => if c == '<' then some (c :: rest) else dropUntilLt rest

/-- `sub` occurs (contiguously) somewhere in `l`. -/
def hasSub (sub : List Char) : List Char → Bool
  | [] => (stripPrefixChars sub []).isSome
  | c :: rest => (stripPrefixChars sub (c :: rest)).isSome || hasSub sub rest

/-- JS `String.prototype.includes` on strings. -/
def strContains (s sub : String) : Bool :=
  hasSub sub.data s.data

/-- Number of positions of `l` at which `sub` starts. -/
def countSub (sub : List Char) : List Char → Nat
  | [] => 0
  | c :: rest =>
    (if (stripPrefixChars sub (c :: rest)).isSome then 1 else 0) + countSub sub rest

/-- Some position of `l` satisfies the positional matcher `p`. -/
def scanAny (p : List Char → Bool) : List Char → Bool
  | [] => p []
  | c :: rest => p (c :: rest) || scanAny p rest

theorem stripPrefixChars_eq_some {p l r : List Char}
    (h : stripPrefixChars p l = some r) : l = p ++ r := by
  induction p generalizing l with
  | nil => simpa [stripPrefixChars] using h
  | cons a ps ih =>
    cases l with
    | nil => simp [stripPrefixChars] at h
    | cons c cs =>
      by_cases hac : a == c
      · have := ih (by simpa [stripPrefixChars, hac] using h)
        simp_all [List.cons_append, eq_of_beq hac]
      · simp [stripPrefixChars, hac] at h

theorem stripPrefixChars_length {p l r : List Char}
    (h : stripPrefixChars p l = some r) : r.length + p.length = l.length := by
  have := stripPrefixChars_eq_some h
  subst this
  simp [Nat.add_comm]

theorem splitAtGt_eq_some {l mid r : List Char}
    (h : splitAtGt l = some (mid, r)) :
    l = mid ++ '>' :: r ∧ ∀ c ∈ mid, c ≠ '>' := by
  induction l generalizing mid r with
  | nil => simp [splitAtGt] at h
  | cons c rest ih =>
    by_cases hc : c == '>'
    · have hc' : c = '>' := eq_of_beq hc
      simp [splitAtGt, hc] at h
      obtain ⟨rfl, rfl⟩ := h
      simp [hc']
    · simp only [splitAtGt, hc, if_neg] at h
      cases hsplit : splitAtGt rest with
      | none => simp [hsplit] at h
      | some p =>
        obtain ⟨mid0, r0⟩ := p
        rw [hsplit] at h
        simp at h
        obtain ⟨hm, hr⟩ := h
        obtain ⟨he, hne⟩ := ih hsplit
        subst hr
        constructor
        · simp [← hm, he]
        · intro d hd
          rw [← hm] at hd
          rcases List.mem_cons.mp hd with h1 | h2
          · subst h1; exact fun hcontra => hc (by simp [hcontra])
          · exact hne d h2

theorem splitAtGt_length {l mid r : List Char}
    (h : splitAtGt l = some (mid, r)) : r.length < l.length := by
  have := (splitAtGt_eq_some h).1
  subst this
  simp
  omega

/-! ## Header maps and the security scorer (`analyzeSecurityHeaders`) -/

/-- A fetched response's header map (`Record<string, string>`). -/
abbrev Headers := List (String × String)

/-- JS property access `headers[name]` on the header record. -/
def lookupHeader (hs : Headers) (name : String) : Option String :=
  hs.lookup name

/-- JS truthiness of `headers[name]`: `undefined` and `""` are falsy. -/
def isTruthy : Option String → Bool
  | none => false
  | some s => !(s == "")

/-- Result shape shared by `analyzeSecurityHeaders` and `analyzeSEO`. -/
structure ScoreResult where
  score : Int
  issues : List String
  recommendations : List String
deriving Repr, DecidableEq

/-- The fixed ordered list of checked security header names
(`siteAnalyzer.ts` lines 451-458). -/
def securityHeaders : List String :=
  ["strict-transport-security",
   "content-security-policy",
   "x-frame-options",
   "x-content-type-options",
   "referrer-policy",
   "permissions-policy"]

/-- Issue string pushed for a missing security header. -/
def missingIssue (header : String) : String :=
  "Missing " ++ header ++ " header"

/-- Recommendation string pushed for a missing security header. -/
def missingRec (header : String) : String :=
  "Add " ++ header ++ " header for better security"

/-- One iteration of the `securityHeaders.forEach` loop: accumulator is
(score, issues, recommendations). -/
def secStep (hs : Headers) (acc : Int × List String × List String)
    (header : String) : Int × List String × List String :=
  if isTruthy (lookupHeader hs header) then acc
  else (acc.1 - 15, acc.2.1 ++ [missingIssue header], acc.2.2 ++ [missingRec header])

/-- Issue string for an exposed `x-powered-by` header. -/
def xPoweredByIssue : String := "X-Powered-By header exposes server information"

/-- Recommendation string for an exposed `x-powered-by` header. -/
def xPoweredByRec : String := "Remove X-Powered-By header to hide server details"

/-- `analyzeSecurityHeaders` (`siteAnalyzer.ts` lines 446-479): start at
100, subtract 15 per falsy security header (pushing issue/recommendation),
subtract 10 when `x-powered-by` is truthy, clamp the final score at 0. -/
def analyzeSecurityHeaders (hs : Headers) : ScoreResult :=
  let r := securityHeaders.foldl (secStep hs) (100, [], [])
  let r2 :=
    if isTruthy (lookupHeader hs "x-powered-by") then
      (r.1 - 10, r.2.1 ++ [xPoweredByIssue], r.2.2 ++ [xPoweredByRec])
    else r
  { score := max 0 r2.1, issues := r2.2.1, recommendations := r2.2.2 }

/-- The security headers whose lookup is falsy, in check order. -/
def missingHeaders (hs : Headers) : List String :=
  securityHeaders.filter (fun h => !(isTruthy (lookupHeader hs h)))

/-- Score penalty of the `x-powered-by` check. -/
def xPoweredByPenalty (hs : Headers) : Int :=
  if isTruthy (lookupHeader hs "x-powered-by") then 10 else 0

/-- Issues contributed by the `x-powered-by` check. -/
def xPoweredByIssues (hs : Headers) : List String :=
  if isTruthy (lookupHeader hs "x-powered-by") then [xPoweredByIssue] else []

/-- Recommendations contributed by the `x-powered-by` check. -/
def xPoweredByRecs (hs : Headers) : List String :=
  if isTruthy (lookupHeader hs "x-powered-by") then [xPoweredByRec] else []

theorem secStep_foldl (hs : Headers) (l : List String) (s : Int)
    (is rs : List String) :
    l.foldl (secStep hs) (s, is, rs) =
      (s - 15 * ((l.filter (fun h => !(isTruthy (lookupHeader hs h)))).length : Int),
       is ++ (l.filter (fun h => !(isTruthy (lookupHeader hs h)))).map missingIssue,
       rs ++ (l.filter (fun h => !(isTruthy (lookupHeader hs h)))).map missingRec) := by
  induction l generalizing s is rs with
  | nil => simp
  | cons h t ih =>
    by_cases htr : isTruthy (lookupHeader hs h)
    · simp [List.foldl_cons, secStep, htr, ih]
    · simp only [List.foldl_cons, secStep, htr, Bool.false_eq_true, if_false,
        List.filter_cons, Bool.not_false, ih]
      simp [htr]
      ring

/-- Closed form of the security scorer. -/
theorem analyzeSecurityHeaders_eq (hs : Headers) :
    analyzeSecurityHeaders hs =
      { score := max 0 (100 - 15 * ((missingHeaders hs).length : Int)
                          - xPoweredByPenalty hs),
        issues := (missingHeaders hs).map missingIssue ++ xPoweredByIssues hs,
        recommendations :=
          (missingHeaders hs).map missingRec ++ xPoweredByRecs hs } := by
  unfold analyzeSecurityHeaders
  rw [secStep_foldl]
  by_cases hx : isTruthy (lookupHeader hs "x-powered-by") <;>
    simp [hx, missingHeaders, xPoweredByPenalty, xPoweredByIssues,
      xPoweredByRecs, securityHeaders]

/-! ## SEO scorer (`analyzeSEO`) — tag-pattern scanners -/

/-- The single-quote character, written by code point. -/
def quoteChar : Char := Char.ofNat 39

/-- A character the regex class `["']` accepts. -/
def isQuote (c : Char) : Bool := c == '"' || c == quoteChar

/-- Positional matcher for `/<title[^>]*>([^<]+)<\/title>/i` on
lowercased text: `<title`, then up to the first `>`, then a non-empty
run of non-`<` characters, then the literal `</title>`. -/
def titleAt (l : List Char) : Bool :=
  match stripPrefixChars "<title".data l with
  | none => false
  | some r1 =>
    match splitAtGt r1 with
    | none => false
    | some (_, r2) =>
      match r2 with
      | [] => false
      | c :: _ =>
        if c == '<' then false
        else
          match dropUntilLt r2 with
          | none => false
          | some r3 => (stripPrefixChars "</title>".data r3).isSome

/-- Positional matcher for `/<h1[^>]*>/i` on lowercased text: `<h1`,
then some later `>` with no other constraint between. -/
def h1At (l : List Char) : Bool :=
  match stripPrefixChars "<h1".data l with
  | none => false
  | some r1 => (splitAtGt r1).isSome

/-- Does `l` start with `name=` followed by a quoted `attr` (the two
quotes are matched independently, as in the regex `["']attr["']`)? -/
def nameAttrAt (attr : List Char) (l : List Char) : Bool :=
  match stripPrefixChars "name=".data l with
  | none => false
  | some r1 =>
    match r1 with
    | [] => false
    | q1 :: r2 =>
      isQuote q1 &&
        (match stripPrefixChars attr r2 with
         | none => false
         | some r3 =>
           match r3 with
           | [] => false
           | q2 :: _ => isQuote q2)

/-- After `<meta`, the regex `[^>]*name=["']attr["']` looks for the
quoted name attribute with only non-`>` characters before it. -/
def metaNameScan (attr : List Char) : List Char → Bool
  | [] => false
  | c :: rest => nameAttrAt attr (c :: rest) || (!(c == '>') && metaNameScan attr rest)

/-- Positional matcher for `/<meta[^>]*name=["']attr["']/i` on
lowercased text. -/
def metaAt (attr : List Char) (l : List Char) : Bool :=
  match stripPrefixChars "<meta".data l with
  | none => false
  | some r1 => metaNameScan attr r1

/-- Fuel-driven worker for the `<img>` scan.  Every recursive call
strictly shortens the scanned list (`splitAtGt` yields a strict suffix),
so fuel equal to the list length is always sufficient and the fuel never
runs out; it exists only to make the recursion structural. -/
def imgScanGo : Nat → List Char → List (List Char)
  | 0, _ => []
  | _ + 1, [] => []
  | fuel + 1, c :: rest =>
    match stripPrefixChars "<img".data (c :: rest) with
    | none => imgScanGo fuel rest
    | some r1 =>
      match splitAtGt r1 with
      | none => []
      | some (mid, r2) => ("<img".data ++ mid ++ ['>']) :: imgScanGo fuel r2

/-- The global scan `/<img[^>]*>/g`: each match runs from a literal
`<img` to the first following `>`; scanning resumes after the match.
Returns the list of matched substrings, in order. -/
def imgScanAux (l : List Char) : List (List Char) :=
  imgScanGo l.length l

/-- `html.match(/<title[^>]*>([^<]+)<\/title>/i)` is non-null. -/
def seoHasTitle (html : String) : Bool := scanAny titleAt (lowerData html)

/-- `html.match(/<meta[^>]*name=["']description["']/i)` is non-null. -/
def seoHasDescription (html : String) : Bool :=
  scanAny (metaAt "description".data) (lowerData html)

/-- `html.match(/<h1[^>]*>/i)` is non-null. -/
def seoHasH1 (html : String) : Bool := scanAny h1At (lowerData html)

/-- `html.match(/<meta[^>]*name=["']viewport["']/i)` is non-null. -/
def seoHasViewport (html : String) : Bool :=
  scanAny (metaAt "viewport".data) (lowerData html)

/-- `html.match(/<img[^>]*>/g) || []` — the matched `<img …>` tags
(this regex has no `i` flag, so it runs on the raw text). -/
def imgTags (html : String) : List (List Char) := imgScanAux html.data

/-- `images.filter(img => !img.includes('alt=')).length`. -/
def noAltImgCount (html : String) : Nat :=
  ((imgTags html).filter (fun m => !(hasSub "alt=".data m))).length

/-- `analyzeSEO` (`siteAnalyzer.ts` lines 481-528): five sequential
checks, each subtracting its penalty and pushing one issue and one
recommendation; final score clamped at 0. -/
def analyzeSEO (html : String) : ScoreResult :=
  let st0 : Int × List String × List String := (100, [], [])
  let st1 :=
    if seoHasTitle html then st0
    else (st0.1 - 20, st0.2.1 ++ ["Missing page title"],
          st0.2.2 ++ ["Add a descriptive page title"])
  let st2 :=
    if seoHasDescription html then st1
    else (st1.1 - 15, st1.2.1 ++ ["Missing meta description"],
          st1.2.2 ++ ["Add a meta description for better search results"])
  let st3 :=
    if seoHasH1 html then st2
    else (st2.1 - 10, st2.2.1 ++ ["Missing H1 tag"],
          st2.2.2 ++ ["Add an H1 tag for better content structure"])
  let st4 :=
    if seoHasViewport html then st3
    else (st3.1 - 15, st3.2.1 ++ ["Missing viewport meta tag"],
          st3.2.2 ++ ["Add viewport meta tag for mobile responsiveness"])
  let n := noAltImgCount html
  let st5 :=
    if 0 < n then
      (st4.1 - min 20 ((n : Int) * 2),
       st4.2.1 ++ [toString n ++ " images missing alt attributes"],
       st4.2.2 ++ ["Add alt attributes to all images for accessibility"])
    else st4
  { score := max 0 st5.1, issues := st5.2.1, recommendations := st5.2.2 }

/-! ## Technology detector (`detectTechnologies`) -/

/-- A detected technology (`version` is never set by this detector). -/
structure Technology where
  name : String
  category : String
  confidence : Nat
deriving Repr, DecidableEq

/-- Server-header rules (`siteAnalyzer.ts` lines 380-391), guarded by
the truthiness of `headers.server`. -/
def serverTechs (headers : Headers) : List Technology :=
  match lookupHeader headers "server" with
  | none => []
  | some server =>
    if server == "" then []
    else
      (if strContains server "nginx" then [⟨"Nginx", "Web Server", 100⟩] else [])
      ++ (if strContains server "Apache" then [⟨"Apache", "Web Server", 100⟩] else [])
      ++ (if strContains server "cloudflare" then [⟨"Cloudflare", "CDN", 100⟩] else [])

/-- Next.js rule (`siteAnalyzer.ts` line 394). -/
def nextTechs (html : String) : List Technology :=
  if strContains html "_next/static" || strContains html "__NEXT_DATA__" then
    [⟨"Next.js", "Framework", 95⟩] else []

/-- React rule (`siteAnalyzer.ts` line 397). -/
def reactTechs (html : String) : List Technology :=
  if strContains html "react" || strContains html "React" then
    [⟨"React", "Library", 80⟩] else []

/-- Vue rule (`siteAnalyzer.ts` line 400). -/
def vueTechs (html : String) : List Technology :=
  if strContains html "vue" || strContains html "Vue" then
    [⟨"Vue.js", "Framework", 80⟩] else []

/-- Angular rule (`siteAnalyzer.ts` line 403). -/
def angularTechs (html : String) : List Technology :=
  if strContains html "angular" || strContains html "ng-" then
    [⟨"Angular", "Framework", 80⟩] else []

/-- Bootstrap rule (`siteAnalyzer.ts` line 408). -/
def bootstrapTechs (html : String) : List Technology :=
  if strContains html "bootstrap" || strContains html "Bootstrap" then
    [⟨"Bootstrap", "CSS Framework", 90⟩] else []

/-- Tailwind rule (`siteAnalyzer.ts` line 411). -/
def tailwindTechs (html : String) : List Technology :=
  if strContains html "tailwind" || strContains html "Tailwind" then
    [⟨"Tailwind CSS", "CSS Framework", 90⟩] else []

/-- Google Analytics rule (`siteAnalyzer.ts` line 416). -/
def gaTechs (html : String) : List Technology :=
  if strContains html "google-analytics" || strContains html "gtag" then
    [⟨"Google Analytics", "Analytics", 95⟩] else []

/-- Google Tag Manager rule (`siteAnalyzer.ts` line 419). -/
def gtmTechs (html : String) : List Technology :=
  if strContains html "googletagmanager" then
    [⟨"Google Tag Manager", "Analytics", 95⟩] else []

/-- WordPress rule (`siteAnalyzer.ts` line 424). -/
def wpTechs (html : String) : List Technology :=
  if strContains html "wp-content" || strContains html "wordpress" then
    [⟨"WordPress", "CMS", 95⟩] else []

/-- Shopify rule (`siteAnalyzer.ts` line 427). -/
def shopifyTechs (html : String) : List Technology :=
  if strContains html "shopify" then
    [⟨"Shopify", "E-commerce", 95⟩] else []

/-- `detectTechnologies` (`siteAnalyzer.ts` lines 377-432): evaluate the
fixed detection rules in order, appending one entry per matching rule. -/
def detectTechnologies (html : String) (headers : Headers) : List Technology :=
  serverTechs headers
  ++ nextTechs html ++ reactTechs html ++ vueTechs html ++ angularTechs html
  ++ bootstrapTechs html ++ tailwindTechs html
  ++ gaTechs html ++ gtmTechs html
  ++ wpTechs html ++ shopifyTechs html

/-! ## Performance estimator (`analyzePerformance`) -/

structure PerformanceMetrics where
  ttfb : Nat
  domContentLoaded : Nat
  pageSize : Nat
  resourceCount : Nat
deriving Repr, DecidableEq

/-- The consuming global scan `html.match(/<(script|link|img)/g)`: at
each position try `<script`, then `<link`, then `<img`; on a match,
resume after the matched literal. Returns the number of matches. -/
def resourceScan : List Char → Nat
  | [] => 0
  | c :: rest =>
    match hsc : stripPrefixChars "<script".data (c :: rest) with
    | some r => resourceScan r + 1
    | none =>
      match hl : stripPrefixChars "<link".data (c :: rest) with
      | some r => resourceScan r + 1
      | none =>
        match hi : stripPrefixChars "<img".data (c :: rest) with
        | some r => resourceScan r + 1
        | none => resourceScan rest
termination_by l => l.length
decreasing_by
  · have := stripPrefixChars_length hsc; simp at this ⊢; omega
  · have := stripPrefixChars_length hl; simp at this ⊢; omega
  · have := stripPrefixChars_length hi; simp at this ⊢; omega
  · simp

/-- `analyzePerformance` (`siteAnalyzer.ts` lines 434-444).  `headers`
is accepted and unused, as in the source.  `Math.floor(loadTime * 0.3)`
and `Math.floor(loadTime * 0.8)` are exact-arithmetic floors; `new
Blob([html]).size` is the UTF-8 byte size. -/
def analyzePerformance (html : String) (headers : Headers) (loadTime : Nat) :
    PerformanceMetrics :=
  { ttfb := 3 * loadTime / 10
    domContentLoaded := 8 * loadTime / 10
    pageSize := html.utf8ByteSize
    resourceCount := resourceScan html.data }

/-! ## Bulk-analysis jobs (`createBulkJob` / `updateBulkJob`) -/

/-- One per-URL outcome recorded by `bulkAnalyzeSites`. -/
structure BulkResult where
  url : String
  success : Bool
  error : Option String
deriving Repr, DecidableEq

/-- A `bulkAnalysisJobs` row (fields touched by the mutations). -/
structure BulkJob where
  userId : String
  urls : List String
  status : String
  results : Option (List BulkResult)
  createdAt : Nat
  completedAt : Option Nat
deriving Repr, DecidableEq

/-- `createBulkJob` (`siteAnalyzer.ts` lines 148-161): insert a new job
with status `"pending"` and no results. -/
def createBulkJob (userId : String) (urls : List String) (now : Nat) : BulkJob :=
  { userId := userId, urls := urls, status := "pending", results := none,
    createdAt := now, completedAt := none }

/-- `updateBulkJob` (`siteAnalyzer.ts` lines 163-180): patch the job to
status `"completed"` with the collected results, whatever they are. -/
def updateBulkJob (job : BulkJob) (results : List BulkResult) (now : Nat) : BulkJob :=
  { job with status := "completed", results := some results, completedAt := some now }

/-- Job states reachable through the two mutations that ever write a
`bulkAnalysisJobs` row (`createBulkJob`, then any number of
`updateBulkJob` patches). -/
inductive JobReachable : BulkJob → Prop
  | created (userId : String) (urls : List String) (now : Nat) :
      JobReachable (createBulkJob userId urls now)
  | updated (job : BulkJob) (results : List BulkResult) (now : Nat) :
      JobReachable job → JobReachable (updateBulkJob job results now)

/-! ## Characteristic equations of the resource scan -/

theorem script_data_eq : "<script".data = ['<','s','c','r','i','p','t'] := rfl

theorem link_data_eq : "<link".data = ['<','l','i','n','k'] := rfl

theorem img_data_eq : "<img".data = ['<','i','m','g'] := rfl

theorem resourceScan_nil : resourceScan [] = 0 := by rw [resourceScan]

theorem resourceScan_script (r : List Char) :
    resourceScan ('<' :: 's' :: 'c' :: 'r' :: 'i' :: 'p' :: 't' ::r) = resourceScan r + 1 := by
  have e : stripPrefixChars "<script".data ('<' :: 's' :: 'c' :: 'r' :: 'i' :: 'p' :: 't' ::r) = some r := rfl
  rw [resourceScan, e]

theorem resourceScan_link (r : List Char) :
    resourceScan ('<' :: 'l' :: 'i' :: 'n' :: 'k' ::r) = resourceScan r + 1 := by
  have e1 : stripPrefixChars "<script".data ('<' :: 'l' :: 'i' :: 'n' :: 'k' ::r) = none := rfl
  have e2 : stripPrefixChars "<link".data ('<' :: 'l' :: 'i' :: 'n' :: 'k' ::r) = some r := rfl
  rw [resourceScan, e1, e2]

theorem resourceScan_img (r : List Char) :
    resourceScan ('<' :: 'i' :: 'm' :: 'g' ::r) = resourceScan r + 1 := by
  have e1 : stripPrefixChars "<script".data ('<' :: 'i' :: 'm' :: 'g' ::r) = none := rfl
  have e2 : stripPrefixChars "<link".data ('<' :: 'i' :: 'm' :: 'g' ::r) = none := rfl
  have e3 : stripPrefixChars "<img".data ('<' :: 'i' :: 'm' :: 'g' ::r) = some r := rfl
  rw [resourceScan, e1, e2, e3]

theorem resourceScan_step (c : Char) (rest : List Char)
    (h1 : stripPrefixChars "<script".data (c :: rest) = none)
    (h2 : stripPrefixChars "<link".data (c :: rest) = none)
    (h3 : stripPrefixChars "<img".data (c :: rest) = none) :
    resourceScan (c :: rest) = resourceScan rest := by
  rw [resourceScan]
  rw [h1, h2, h3]

/-- The consuming regex scan counts exactly the positions at which one
of the three literals starts: a matched literal contains `<` only at
its head, so skipping over it can never skip another potential match. -/
theorem resourceScan_eq_countSub (l : List Char) :
    resourceScan l =
      countSub "<script".data l + countSub "<link".data l + countSub "<img".data l := by
  induction l using resourceScan.induct with
  | case1 => simp [resourceScan_nil, countSub]
  | case2 c rest r hsc ih =>
    have hdec := stripPrefixChars_eq_some hsc
    simp only [script_data_eq, List.cons_append, List.nil_append] at hdec
    rw [hdec, resourceScan_script]
    simp only [script_data_eq, link_data_eq, img_data_eq] at ih ⊢
    simp [countSub, stripPrefixChars, ih]
    omega
  | case3 c rest hsc r hl ih =>
    have hdec := stripPrefixChars_eq_some hl
    simp only [link_data_eq, List.cons_append, List.nil_append] at hdec
    rw [hdec, resourceScan_link]
    simp only [script_data_eq, link_data_eq, img_data_eq] at ih ⊢
    simp [countSub, stripPrefixChars, ih]
    omega
  | case4 c rest hsc hl r hi ih =>
    have hdec := stripPrefixChars_eq_some hi
    simp only [img_data_eq, List.cons_append, List.nil_append] at hdec
    rw [hdec, resourceScan_img]
    simp only [script_data_eq, link_data_eq, img_data_eq] at ih ⊢
    simp [countSub, stripPrefixChars, ih]
    omega
  | case5 c rest hsc hl hi ih =>
    rw [resourceScan_step c rest hsc hl hi]
    simp [countSub, hsc, hl, hi, ih]

/-! ## Security issue-string facts -/

theorem missingIssue_injOn :
    ∀ m ∈ securityHeaders, ∀ k ∈ securityHeaders,
      missingIssue m = missingIssue k → m = k := by decide

theorem missingIssue_ne_xpb :
    ∀ k ∈ securityHeaders, ¬ missingIssue k = xPoweredByIssue := by decide

/-- Membership of a security header's issue string is equivalent to the
falsiness of the exact-key lookup of that header name. -/
theorem mem_security_issues_iff (hs : Headers) (n : String)
    (hn : n ∈ securityHeaders) :
    missingIssue n ∈ (analyzeSecurityHeaders hs).issues ↔
      isTruthy (lookupHeader hs n) = false := by
  rw [analyzeSecurityHeaders_eq]
  simp only [List.mem_append]
  constructor
  · rintro (hmem | hmem)
    · obtain ⟨m, hm, heq⟩ := List.mem_map.mp hmem
      have hm2 := List.mem_filter.mp hm
      have hmn : m = n := missingIssue_injOn m hm2.1 n hn heq
      subst hmn
      simpa using hm2.2
    · unfold xPoweredByIssues at hmem
      by_cases hx : isTruthy (lookupHeader hs "x-powered-by") <;> simp [hx] at hmem
      exact absurd hmem (missingIssue_ne_xpb n hn)
  · intro hfalse
    exact Or.inl (List.mem_map.mpr
      ⟨n, List.mem_filter.mpr ⟨hn, by simp [hfalse]⟩, rfl⟩)

/-! ## Claims -/

/-- C1 (counterexample): the empty header map contains none of the six
security header names and no `x-powered-by`, yet `analyzeSecurityHeaders`
returns score 10 (= max 0 (100 − 6·15)), not 0 as claimed: the −10
X-Powered-By penalty only applies when that header is present. -/
theorem c1_counterexample :
    lookupHeader [] "strict-transport-security" = none ∧
    lookupHeader [] "content-security-policy" = none ∧
    lookupHeader [] "x-frame-options" = none ∧
    lookupHeader [] "x-content-type-options" = none ∧
    lookupHeader [] "referrer-policy" = none ∧
    lookupHeader [] "permissions-policy" = none ∧
    lookupHeader [] "x-powered-by" = none ∧
    (analyzeSecurityHeaders []).issues.length = 6 ∧
    (analyzeSecurityHeaders []).score = 10 ∧
    ¬ (analyzeSecurityHeaders []).score = 0 := by decide

/-- C1 (amended): for every header map where all six security header
names look up to nothing and `x-powered-by` looks up to nothing, the
security scorer returns score 10 and exactly 6 issues. -/
theorem c1_all_missing_score (hs : Headers)
    (h6 : ∀ n ∈ securityHeaders, lookupHeader hs n = none)
    (hx : lookupHeader hs "x-powered-by" = none) :
    (analyzeSecurityHeaders hs).score = 10 ∧
    (analyzeSecurityHeaders hs).issues.length = 6 := by
  have hmiss : missingHeaders hs = securityHeaders := by
    unfold missingHeaders
    apply List.filter_eq_self.mpr
    intro a ha
    rw [h6 a ha]
    simp [isTruthy]
  rw [analyzeSecurityHeaders_eq]
  simp [hmiss, xPoweredByPenalty, xPoweredByIssues, hx, isTruthy, securityHeaders]

/-- C1 (witness): the amended theorem applied to the empty header map. -/
theorem c1_witness :
    (∀ n ∈ securityHeaders, lookupHeader [] n = none) ∧
    lookupHeader [] "x-powered-by" = none ∧
    ((analyzeSecurityHeaders []).score = 10 ∧
     (analyzeSecurityHeaders []).issues.length = 6) :=
  ⟨by decide, by decide, c1_all_missing_score [] (by decide) (by decide)⟩

/-- C3 (counterexample): a header map whose only key is
`Strict-Transport-Security` — case-insensitively equal to
`strict-transport-security` — is nevertheless penalized for that header:
the lookup is an exact, case-sensitive property access. -/
theorem c3_counterexample :
    lowerStr "Strict-Transport-Security" = "strict-transport-security" ∧
    missingIssue "strict-transport-security" ∈
      (analyzeSecurityHeaders
        [("Strict-Transport-Security", "max-age=63072000")]).issues := by decide

/-- C3 (amended): the presence check is case-sensitive truthiness of the
exact (lowercase) header name: the 15-point penalty's issue for a name is
present iff that exact key does not map to a non-empty value. -/
theorem c3_presence_case_sensitive (hs : Headers) (n : String)
    (hn : n ∈ securityHeaders) :
    missingIssue n ∈ (analyzeSecurityHeaders hs).issues ↔
      isTruthy (lookupHeader hs n) = false :=
  mem_security_issues_iff hs n hn

/-- C3 (witness): the amended theorem applied to the mixed-case map and
`strict-transport-security`. -/
theorem c3_witness :
    "strict-transport-security" ∈ securityHeaders ∧
    missingIssue "strict-transport-security" ∈
      (analyzeSecurityHeaders
        [("Strict-Transport-Security", "max-age=63072000")]).issues :=
  ⟨by decide,
   (c3_presence_case_sensitive
     [("Strict-Transport-Security", "max-age=63072000")]
     "strict-transport-security" (by decide)).mpr (by decide)⟩

/-- C10 (confirmed): presence is tested by truthiness of the mapped
value, not key membership: a security header mapped to `""` is penalized
as missing (its issue and recommendation appear, and it counts in the
15-point-per-header missing list), while `x-powered-by` mapped to `""`
incurs no X-Powered-By penalty (no issue, and the score carries no −10
term). -/
theorem c10_truthiness_not_membership :
    (∀ (hs : Headers) (n : String), n ∈ securityHeaders →
      lookupHeader hs n = some "" →
        missingIssue n ∈ (analyzeSecurityHeaders hs).issues ∧
        missingRec n ∈ (analyzeSecurityHeaders hs).recommendations ∧
        n ∈ missingHeaders hs) ∧
    (∀ hs : Headers, lookupHeader hs "x-powered-by" = some "" →
      xPoweredByIssue ∉ (analyzeSecurityHeaders hs).issues ∧
      (analyzeSecurityHeaders hs).score =
        max 0 (100 - 15 * ((missingHeaders hs).length : Int))) := by
  constructor
  · intro hs n hn hempty
    have hfalse : isTruthy (lookupHeader hs n) = false := by
      rw [hempty]; simp [isTruthy]
    have hmem : n ∈ missingHeaders hs :=
      List.mem_filter.mpr ⟨hn, by simp [hfalse]⟩
    refine ⟨(mem_security_issues_iff hs n hn).mpr hfalse, ?_, hmem⟩
    rw [analyzeSecurityHeaders_eq]
    exact List.mem_append.mpr (Or.inl (List.mem_map.mpr ⟨n, hmem, rfl⟩))
  · intro hs hempty
    have hxf : isTruthy (lookupHeader hs "x-powered-by") = false := by
      rw [hempty]; simp [isTruthy]
    constructor
    · rw [analyzeSecurityHeaders_eq]
      intro hmem
      rcases List.mem_append.mp hmem with hmem | hmem
      · obtain ⟨m, hm, heq⟩ := List.mem_map.mp hmem
        exact missingIssue_ne_xpb m (List.mem_filter.mp hm).1 heq
      · simp [xPoweredByIssues, hxf] at hmem
    · rw [analyzeSecurityHeaders_eq]
      simp [xPoweredByPenalty, hxf]

/-- C10 (witness): a map sending `strict-transport-security` and
`x-powered-by` both to `""`: the former is penalized as missing; the
latter triggers no X-Powered-By issue. -/
theorem c10_witness :
    (missingIssue "strict-transport-security" ∈
       (analyzeSecurityHeaders
         [("strict-transport-security", ""), ("x-powered-by", "")]).issues ∧
     missingRec "strict-transport-security" ∈
       (analyzeSecurityHeaders
         [("strict-transport-security", ""), ("x-powered-by", "")]).recommendations ∧
     "strict-transport-security" ∈ missingHeaders
       [("strict-transport-security", ""), ("x-powered-by", "")]) ∧
    xPoweredByIssue ∉
      (analyzeSecurityHeaders
        [("strict-transport-security", ""), ("x-powered-by", "")]).issues :=
  ⟨c10_truthiness_not_membership.1
     [("strict-transport-security", ""), ("x-powered-by", "")]
     "strict-transport-security" (by decide) (by decide),
   (c10_truthiness_not_membership.2
     [("strict-transport-security", ""), ("x-powered-by", "")] (by decide)).1⟩

/-- Score contribution of the four tag checks of `analyzeSEO`, before
the image-alt check. -/
def seoTagScore (html : String) : Int :=
  100 - (if seoHasTitle html then 0 else 20)
      - (if seoHasDescription html then 0 else 15)
      - (if seoHasH1 html then 0 else 10)
      - (if seoHasViewport html then 0 else 15)


/-- C9 (confirmed): the SEO score always lies in [20, 100]: the five
deductions total at most 20 + 15 + 10 + 15 + 20 = 80, so the final
clamp at 0 never binds. -/
theorem c9_seo_score_bounds (html : String) :
    20 ≤ (analyzeSEO html).score ∧ (analyzeSEO html).score ≤ 100 := by
  unfold analyzeSEO
  by_cases t : seoHasTitle html <;>
    by_cases d : seoHasDescription html <;>
      by_cases h1 : seoHasH1 html <;>
        by_cases v : seoHasViewport html <;>
          by_cases n : 0 < noAltImgCount html <;>
            simp [t, d, h1, v, n] <;> omega

/-- C2 (counterexample): the empty page has no title, description, H1,
viewport, or image matches, yet `analyzeSEO` returns score 40
(= 100 − 20 − 15 − 10 − 15), not the claimed 30. -/
theorem c2_counterexample :
    seoHasTitle "" = false ∧
    seoHasDescription "" = false ∧
    seoHasH1 "" = false ∧
    seoHasViewport "" = false ∧
    imgTags "" = [] ∧
    (analyzeSEO "").issues.length = 4 ∧
    (analyzeSEO "").score = 40 ∧
    ¬ (analyzeSEO "").score = 30 := by decide

/-- C2 (amended): for every HTML string with no title match, no
description meta match, no H1 match, no viewport meta match and zero
`<img>` tag matches, `analyzeSEO` returns score 40 and 4 issues. -/
theorem c2_seo_all_missing (html : String)
    (ht : seoHasTitle html = false)
    (hd : seoHasDescription html = false)
    (hh : seoHasH1 html = false)
    (hv : seoHasViewport html = false)
    (hi : imgTags html = []) :
    (analyzeSEO html).score = 40 ∧ (analyzeSEO html).issues.length = 4 := by
  have hn : noAltImgCount html = 0 := by
    unfold noAltImgCount
    rw [hi]
    rfl
  unfold analyzeSEO
  simp [ht, hd, hh, hv, hn]

/-- C2 (witness): the amended theorem applied to the empty page. -/
theorem c2_witness :
    seoHasTitle "" = false ∧ seoHasDescription "" = false ∧
    seoHasH1 "" = false ∧ seoHasViewport "" = false ∧ imgTags "" = [] ∧
    ((analyzeSEO "").score = 40 ∧ (analyzeSEO "").issues.length = 4) :=
  ⟨by decide, by decide, by decide, by decide, by decide,
   c2_seo_all_missing "" (by decide) (by decide) (by decide) (by decide) (by decide)⟩

/-- A page of 15 `<img>` tags, none carrying `alt=`. -/
def fifteenImgsHtml : String :=
  "<img src=x><img src=x><img src=x><img src=x><img src=x><img src=x><img src=x><img src=x><img src=x><img src=x><img src=x><img src=x><img src=x><img src=x><img src=x>"

set_option maxRecDepth 8192

/-- C6 (confirmed): the image-alt deduction is `min 20 (2·n)` for `n`
counted `<img>` matches lacking `alt=`, applied only when `n > 0`; in
particular 15 alt-less images are capped at 20 (score 20 on a page that
also misses all four tag checks), not 30. -/
theorem c6_alt_penalty_capped :
    (∀ html : String,
      (analyzeSEO html).score =
        max 0 (seoTagScore html -
          (if 0 < noAltImgCount html then
            min 20 ((noAltImgCount html : Int) * 2) else 0))) ∧
    noAltImgCount fifteenImgsHtml = 15 ∧
    (analyzeSEO fifteenImgsHtml).score = 20 := by
  refine ⟨?_, by decide, by decide⟩
  intro html
  unfold analyzeSEO seoTagScore
  by_cases t : seoHasTitle html <;>
    by_cases d : seoHasDescription html <;>
      by_cases h1 : seoHasH1 html <;>
        by_cases v : seoHasViewport html <;>
          by_cases n : 0 < noAltImgCount html <;>
            simp [t, d, h1, v, n]

/-- C4 (confirmed): `analyzePerformance` returns exactly
`⌊0.3·loadTime⌋` and `⌊0.8·loadTime⌋` (hence 300 and 800 at
loadTime = 1000), the UTF-8 byte size of the HTML, and the number of
case-sensitive literal occurrences of `<script`, `<link` and `<img`. -/
theorem c4_performance_formulas (html : String) (hs : Headers) (loadTime : Nat) :
    analyzePerformance html hs loadTime =
      { ttfb := 3 * loadTime / 10,
        domContentLoaded := 8 * loadTime / 10,
        pageSize := html.utf8ByteSize,
        resourceCount :=
          countSub "<script".data html.data + countSub "<link".data html.data
            + countSub "<img".data html.data } ∧
    (analyzePerformance html hs 1000).ttfb = 300 ∧
    (analyzePerformance html hs 1000).domContentLoaded = 800 := by
  refine ⟨?_, rfl, rfl⟩
  unfold analyzePerformance
  rw [resourceScan_eq_countSub]

/-- C5 (confirmed): on HTML containing both literals `"react"` and
`"tailwind"`, the detector's output contains the React entry and the
Tailwind CSS entry, with React strictly before Tailwind (detection-rule
order, not confidence order). -/
theorem c5_react_before_tailwind (html : String) (hs : Headers)
    (hr : strContains html "react" = true)
    (ht : strContains html "tailwind" = true) :
    ∃ l1 l2 l3, detectTechnologies html hs =
      l1 ++ (⟨"React", "Library", 80⟩ : Technology) ::
        (l2 ++ (⟨"Tailwind CSS", "CSS Framework", 90⟩ : Technology) :: l3) := by
  refine ⟨serverTechs hs ++ nextTechs html,
          vueTechs html ++ angularTechs html ++ bootstrapTechs html,
          gaTechs html ++ gtmTechs html ++ wpTechs html ++ shopifyTechs html, ?_⟩
  unfold detectTechnologies reactTechs tailwindTechs
  rw [hr, ht]
  simp [List.append_assoc]

/-- C5 (witness): the theorem applied at `"react tailwind"`. -/
theorem c5_witness :
    strContains "react tailwind" "react" = true ∧
    strContains "react tailwind" "tailwind" = true ∧
    (∃ l1 l2 l3, detectTechnologies "react tailwind" [] =
      l1 ++ (⟨"React", "Library", 80⟩ : Technology) ::
        (l2 ++ (⟨"Tailwind CSS", "CSS Framework", 90⟩ : Technology) :: l3)) :=
  ⟨by decide, by decide,
   c5_react_before_tailwind "react tailwind" [] (by decide) (by decide)⟩

/-- C8 (confirmed): a bulk job's status is `"pending"` at creation,
`"completed"` after any update — with the recorded per-URL results,
failed or not — and no reachable job state ever carries the declared
`"failed"` or `"running"` status values. -/
theorem c8_job_status_pending_completed :
    (∀ (userId : String) (urls : List String) (now : Nat),
      (createBulkJob userId urls now).status = "pending") ∧
    (∀ (job : BulkJob) (results : List BulkResult) (now : Nat),
      (updateBulkJob job results now).status = "completed") ∧
    (∀ job : BulkJob, JobReachable job →
      (job.status = "pending" ∨ job.status = "completed") ∧
      job.status ≠ "failed" ∧ job.status ≠ "running") := by
  refine ⟨fun _ _ _ => rfl, fun _ _ _ => rfl, ?_⟩
  intro job hreach
  induction hreach with
  | created userId urls now =>
    exact ⟨Or.inl rfl, by simp [createBulkJob], by simp [createBulkJob]⟩
  | updated job results now _ _ =>
    exact ⟨Or.inr rfl, by simp [updateBulkJob], by simp [updateBulkJob]⟩

/-- C8 (witness): a two-URL batch in which every URL failed still ends
at status `"completed"`, and that state is reachable. -/
theorem c8_witness :
    (updateBulkJob (createBulkJob "user1" ["https://a.example", "not a url"] 5)
        [⟨"https://a.example", false, some "Failed to analyze site: fetch failed"⟩,
         ⟨"not a url", false, some "Failed to analyze site: Invalid URL"⟩] 9).status
      = "completed" ∧
    ((updateBulkJob (createBulkJob "user1" ["https://a.example", "not a url"] 5)
        [⟨"https://a.example", false, some "Failed to analyze site: fetch failed"⟩,
         ⟨"not a url", false, some "Failed to analyze site: Invalid URL"⟩] 9).status
        ≠ "failed" ∧
     (updateBulkJob (createBulkJob "user1" ["https://a.example", "not a url"] 5)
        [⟨"https://a.example", false, some "Failed to analyze site: fetch failed"⟩,
         ⟨"not a url", false, some "Failed to analyze site: Invalid URL"⟩] 9).status
        ≠ "running") :=
  have hreach : JobReachable
      (updateBulkJob (createBulkJob "user1" ["https://a.example", "not a url"] 5)
        [⟨"https://a.example", false, some "Failed to analyze site: fetch failed"⟩,
         ⟨"not a url", false, some "Failed to analyze site: Invalid URL"⟩] 9) :=
    JobReachable.updated _ _ _ (JobReachable.created _ _ _)
  have h := c8_job_status_pending_completed.2.2 _ hreach
  ⟨by
    rcases h.1 with hp | hc
    · exact absurd hp (by decide)
    · exact hc,
   h.2⟩

/-- The fixed issue/recommendation correspondence of the security
checks (`siteAnalyzer.ts` lines 460-472): each of the six header checks
pushes `missingIssue h` with `missingRec h`, and the X-Powered-By check
pushes its fixed pair. -/
def securityPaired (issue rec : String) : Prop :=
  (∃ h ∈ securityHeaders, issue = missingIssue h ∧ rec = missingRec h) ∨
  (issue = xPoweredByIssue ∧ rec = xPoweredByRec)

/-- The fixed issue/recommendation correspondence of the SEO checks
(`siteAnalyzer.ts` lines 487-521); the image-alt issue embeds the
counted number of alt-less images. -/
def seoPaired (issue rec : String) : Prop :=
  (issue = "Missing page title" ∧ rec = "Add a descriptive page title") ∨
  (issue = "Missing meta description" ∧
    rec = "Add a meta description for better search results") ∨
  (issue = "Missing H1 tag" ∧ rec = "Add an H1 tag for better content structure") ∨
  (issue = "Missing viewport meta tag" ∧
    rec = "Add viewport meta tag for mobile responsiveness") ∨
  (∃ n : Nat, issue = toString n ++ " images missing alt attributes" ∧
    rec = "Add alt attributes to all images for accessibility")

/-- The (issue, recommendation) pairs pushed by the security checks. -/
def securityCheckPairs (hs : Headers) : List (String × String) :=
  (missingHeaders hs).map (fun h => (missingIssue h, missingRec h)) ++
  (if isTruthy (lookupHeader hs "x-powered-by") then
    [(xPoweredByIssue, xPoweredByRec)] else [])

/-- The (issue, recommendation) pairs pushed by the SEO checks. -/
def seoCheckPairs (html : String) : List (String × String) :=
  (if seoHasTitle html then [] else
    [("Missing page title", "Add a descriptive page title")])
  ++ (if seoHasDescription html then [] else
    [("Missing meta description", "Add a meta description for better search results")])
  ++ (if seoHasH1 html then [] else
    [("Missing H1 tag", "Add an H1 tag for better content structure")])
  ++ (if seoHasViewport html then [] else
    [("Missing viewport meta tag", "Add viewport meta tag for mobile responsiveness")])
  ++ (if 0 < noAltImgCount html then
    [(toString (noAltImgCount html) ++ " images missing alt attributes",
      "Add alt attributes to all images for accessibility")] else [])

/-- Two lists arising as first/second projections of one pair list have
equal length and are paired index by index. -/
theorem paired_of_maps (P : String → String → Prop)
    (pairs : List (String × String))
    (hall : ∀ p ∈ pairs, P p.1 p.2) (is rs : List String)
    (hi : is = pairs.map Prod.fst) (hr : rs = pairs.map Prod.snd) :
    is.length = rs.length ∧
    ∀ (i : Nat) (h1 : i < is.length) (h2 : i < rs.length),
      P (is.get ⟨i, h1⟩) (rs.get ⟨i, h2⟩) := by
  subst hi hr
  refine ⟨by simp, ?_⟩
  intro i h1 h2
  have hp : i < pairs.length := by simpa using h1
  simp only [List.get_eq_getElem, List.getElem_map]
  exact hall (pairs.get ⟨i, hp⟩) (List.get_mem pairs i hp)

theorem security_issues_eq_pairs (hs : Headers) :
    (analyzeSecurityHeaders hs).issues = (securityCheckPairs hs).map Prod.fst ∧
    (analyzeSecurityHeaders hs).recommendations =
      (securityCheckPairs hs).map Prod.snd := by
  rw [analyzeSecurityHeaders_eq]
  by_cases hx : isTruthy (lookupHeader hs "x-powered-by") <;>
    simp [securityCheckPairs, xPoweredByIssues, xPoweredByRecs, hx,
      List.map_map, Function.comp]

theorem securityCheckPairs_sound (hs : Headers) :
    ∀ p ∈ securityCheckPairs hs, securityPaired p.1 p.2 := by
  intro p hp
  unfold securityCheckPairs at hp
  rcases List.mem_append.mp hp with hp | hp
  · obtain ⟨h, hmem, rfl⟩ := List.mem_map.mp hp
    exact Or.inl ⟨h, (List.mem_filter.mp hmem).1, rfl, rfl⟩
  · split at hp
    · simp at hp
      subst hp
      exact Or.inr ⟨rfl, rfl⟩
    · simp at hp

theorem seo_issues_eq_pairs (html : String) :
    (analyzeSEO html).issues = (seoCheckPairs html).map Prod.fst ∧
    (analyzeSEO html).recommendations = (seoCheckPairs html).map Prod.snd := by
  unfold analyzeSEO seoCheckPairs
  by_cases t : seoHasTitle html <;>
    by_cases d : seoHasDescription html <;>
      by_cases h1 : seoHasH1 html <;>
        by_cases v : seoHasViewport html <;>
          by_cases n : 0 < noAltImgCount html <;>
            simp [t, d, h1, v, n]

theorem seoCheckPairs_sound (html : String) :
    ∀ p ∈ seoCheckPairs html, seoPaired p.1 p.2 := by
  intro p hp
  unfold seoCheckPairs at hp
  rcases List.mem_append.mp hp with hp | hp
  rotate_left
  · split at hp
    · simp at hp
      subst hp
      exact Or.inr (Or.inr (Or.inr (Or.inr ⟨noAltImgCount html, rfl, rfl⟩)))
    · simp at hp
  rcases List.mem_append.mp hp with hp | hp
  rotate_left
  · split at hp
    · simp at hp
    · simp at hp
      subst hp
      exact Or.inr (Or.inr (Or.inr (Or.inl ⟨rfl, rfl⟩)))
  rcases List.mem_append.mp hp with hp | hp
  rotate_left
  · split at hp
    · simp at hp
    · simp at hp
      subst hp
      exact Or.inr (Or.inr (Or.inl ⟨rfl, rfl⟩))
  rcases List.mem_append.mp hp with hp | hp
  · split at hp
    · simp at hp
    · simp at hp
      subst hp
      exact Or.inl ⟨rfl, rfl⟩
  · split at hp
    · simp at hp
    · simp at hp
      subst hp
      exact Or.inr (Or.inl ⟨rfl, rfl⟩)

/-- C7 (confirmed): for every input, each scorer's issues and
recommendations have equal length and are paired index by index: the
i-th recommendation is the fixed recommendation belonging to the i-th
issue's check. -/
theorem c7_issues_recommendations_paired :
    (∀ hs : Headers,
      (analyzeSecurityHeaders hs).issues.length =
        (analyzeSecurityHeaders hs).recommendations.length ∧
      ∀ (i : Nat) (h1 : i < (analyzeSecurityHeaders hs).issues.length)
        (h2 : i < (analyzeSecurityHeaders hs).recommendations.length),
        securityPaired ((analyzeSecurityHeaders hs).issues.get ⟨i, h1⟩)
          ((analyzeSecurityHeaders hs).recommendations.get ⟨i, h2⟩)) ∧
    (∀ html : String,
      (analyzeSEO html).issues.length =
        (analyzeSEO html).recommendations.length ∧
      ∀ (i : Nat) (h1 : i < (analyzeSEO html).issues.length)
        (h2 : i < (analyzeSEO html).recommendations.length),
        seoPaired ((analyzeSEO html).issues.get ⟨i, h1⟩)
          ((analyzeSEO html).recommendations.get ⟨i, h2⟩)) := by
  constructor
  · intro hs
    exact paired_of_maps securityPaired (securityCheckPairs hs)
      (securityCheckPairs_sound hs) _ _
      (security_issues_eq_pairs hs).1 (security_issues_eq_pairs hs).2
  · intro html
    exact paired_of_maps seoPaired (seoCheckPairs html)
      (seoCheckPairs_sound html) _ _
      (seo_issues_eq_pairs html).1 (seo_issues_eq_pairs html).2

/-- C7 (witness): index-wise pairing exercised at index 0 of the empty
header map's six issues and index 3 of the empty page's four issues. -/
theorem c7_witness :
    securityPaired ((analyzeSecurityHeaders []).issues.get ⟨0, by decide⟩)
      ((analyzeSecurityHeaders []).recommendations.get ⟨0, by decide⟩) ∧
    seoPaired ((analyzeSEO "").issues.get ⟨3, by decide⟩)
      ((analyzeSEO "").recommendations.get ⟨3, by decide⟩) :=
  ⟨(c7_issues_recommendations_paired.1 []).2 0 (by decide) (by decide),
   (c7_issues_recommendations_paired.2 "").2 3 (by decide) (by decide)⟩
